import Mathlib

/-!
Verification development for the PPSSPP headless test runner
(`headless/Headless.cpp`).  The single-threaded orchestration performed by
`main` is embedded shallowly: pure helper functions (`ChopFront`, `ChopEnd`,
backend-name matching, C99 `strtod` over an extended-double value type) become
Lean functions,
and the run itself becomes a trace of collaborator/reporter invocations,
driven by an environment oracle that supplies the results of the external
collaborators (`InitGL`, `PSP_Init`, the core state written by
`PSP_RunLoopFor`, and the wall clock read by `time_now`, modelled as ℚ).
-/

namespace Headless

/-- GPU backend selector, from `GPUCore` as used in `Headless.cpp`. -/
inductive GPUCore
| GPU_NULL
| GPU_GLES
| GPU_SOFTWARE
| GPU_DIRECTX9
deriving DecidableEq, Repr

/-- CPU core selector (`coreParameter.cpuCore`). -/
inductive CPUCore
| CPU_JIT
| CPU_INTERPRETER
deriving DecidableEq, Repr

/-- Global core state consulted by the run loop (`coreState`). -/
inductive CoreState
| CORE_RUNNING
| CORE_NEXTFRAME
| CORE_STEPPING
| CORE_POWERDOWN
| CORE_ERROR
deriving DecidableEq, Repr

/-- The fields of `CoreParameter` that `main` sets from the parsed
configuration and that matter to the claims (lines 234-252). -/
structure CoreParameter where
  cpuCore : CPUCore
  gpuCore : GPUCore
  fileToStart : String
  mountIso : String
  printfEmuLog : Bool
  collectEmuLog : Bool
deriving DecidableEq, Repr

/-- One observable action of `main`: a call into a collaborator or an
emission of a reporting-protocol event (`TeamCityPrint` call sites). -/
inductive Event
| usage
| initGL
| pspInitEvt (p : CoreParameter)
| bootFailMsg
| testError
| ignoredEvt
| startedEvt
| bootDone
| setScreenshot (f : String)
| runQuantum
| resumeRunning
| swapBuffers
| flushOutput
| debugOutput (s : String)
| failedEvt
| coreStop
| shutdownGL
| pspShutdown
| flushDebugOutput
| compareOutput
| finishedEvt
deriving DecidableEq, Repr

/-- The value space of a C `double` as this program observes it: a finite
value (kept as an exact rational), positive or negative infinity, or NaN.
Rounding of finite values to the nearest representable double is not
modelled; the program observes a timeout only through the sign test of
line 307 and the deadline comparison of line 321, and rounding within the
finite range changes neither. -/
inductive DoubleVal
| fin (q : ℚ)
| posInf
| negInf
| nanV
deriving DecidableEq, Repr

/-- The configuration produced by the argument-parsing loop of `main`
(lines 132-211). -/
structure Config where
  fullLog : Bool
  useJit : Bool
  autoCompare : Bool
  gpuCore : GPUCore
  bootFilename : String
  mountIso : Option String
  screenshotFilename : Option String
  timeout : DoubleVal
  teamCityMode : Bool
deriving DecidableEq, Repr

/-- Why `main` printed the usage text and returned 1 before building the
orchestrator (the `printUsage`+`return 1` sites in lines 174-211). -/
inductive UsageReason
| unknownBackend
| helpRequested
| unexpectedArgument (a : String)
| missingMountArg
| noArgs
| noExecutable
deriving DecidableEq, Repr

/-- Environment oracle: the answers of the external collaborators during one
process run.  `steps` gives, for each iteration of the run loop, the value
`PSP_RunLoopFor` leaves in `coreState` and the wall time `time_now()` reads
after `time_update()` in that iteration.  `t0` is the wall time at the
`time_update()` preceding the deadline computation (line 305). -/
structure Env where
  glWorking : Bool
  bootOk : Bool
  t0 : ℚ
  steps : List (CoreState × ℚ)

/-- `ChopFront` from `Headless.cpp` lines 109-117, on character lists. -/
def chopFrontL (s front : List Char) : List Char :=
  if s.length ≥ front.length ∧ s.take front.length = front then
    s.drop front.length
  else s

/-- `ChopEnd` from `Headless.cpp` lines 119-128, on character lists. -/
def chopEndL (s e : List Char) : List Char :=
  if s.length ≥ e.length ∧ s.drop (s.length - e.length) = e then
    s.take (s.length - e.length)
  else s

/-- `ChopFront` on strings. -/
def ChopFront (s front : String) : String := ⟨chopFrontL s.data front.data⟩

/-- `ChopEnd` on strings. -/
def ChopEnd (s e : String) : String := ⟨chopEndL s.data e.data⟩

/-- Test-name derivation for the reporting protocol, line 288:
`ChopEnd(ChopFront(ChopFront(bootFilename, "tests/"), "pspautotests/tests/"), ".prx")`. -/
def deriveTestName (s : String) : String :=
  ChopEnd (ChopFront (ChopFront s "tests/") "pspautotests/tests/") ".prx"

/-- Case-insensitive string equality as computed by `strcasecmp` in the C
locale: both sides are lowercased ASCII-wise and compared.  `Char.toLower`
lowercases exactly the ASCII range, as `tolower` does in the C locale. -/
def strCaseEq (a b : String) : Bool :=
  a.data.map Char.toLower == b.data.map Char.toLower

/-- The backend-name dispatch after `--graphics=`, lines 163-176. -/
def parseGpuBackend (s : String) : Option GPUCore :=
  if strCaseEq s "gles" then some GPUCore.GPU_GLES
  else if strCaseEq s "software" then some GPUCore.GPU_SOFTWARE
  else if strCaseEq s "directx9" then some GPUCore.GPU_DIRECTX9
  else if strCaseEq s "null" then some GPUCore.GPU_NULL
  else none

/-- Whitespace skipped by `strtod` (`isspace` in the C locale). -/
def isSpaceC (c : Char) : Bool :=
  c == ' ' || c == '\t' || c == '\n' || c == Char.ofNat 11 || c == Char.ofNat 12 || c == '\r'

/-- Numeric value of a digit string. -/
def digitsVal (l : List Char) : ℕ :=
  l.foldl (fun a c => 10 * a + (c.toNat - 48)) 0

/-- Optional sign, returning whether a minus was consumed and the rest. -/
def parseSign : List Char → Bool × List Char
| '-' :: rest => (true, rest)
| '+' :: rest => (false, rest)
| l => (false, l)

/-- Exponent part of `strtod`: `[eE][+-]?digits`; a malformed exponent is
not consumed and contributes 0. -/
def parseExp (l : List Char) : ℤ :=
  match l with
  | 'e' :: rest =>
      let sg := parseSign rest
      let ds := sg.2.takeWhile Char.isDigit
      if ds.isEmpty then 0
      else if sg.1 then -(digitsVal ds : ℤ) else (digitsVal ds : ℤ)
  | 'E' :: rest =>
      let sg := parseSign rest
      let ds := sg.2.takeWhile Char.isDigit
      if ds.isEmpty then 0
      else if sg.1 then -(digitsVal ds : ℤ) else (digitsVal ds : ℤ)
  | _ => 0

/-- Smallest magnitude that overflows a `double` under round-to-nearest:
the midpoint between `DBL_MAX = 2^1024 - 2^971` and `2^1024` rounds up to
infinity, so every value of magnitude at least `2^1024 - 2^970` becomes
`±HUGE_VAL = ±inf` (C99 7.20.1.3). -/
def dblOvf : ℚ := 2 ^ 1024 - 2 ^ 970

/-- Largest magnitude that underflows to (signed) zero under
round-to-nearest-even: half the smallest denormal, `2^-1075`. -/
def dblTiny : ℚ := (2 : ℚ) ^ (-1075 : ℤ)

/-- Build the `double` result from a sign and an exact magnitude,
saturating overflow to the infinities and underflow to zero (signed zeros
compare equal to 0, so both are `fin 0`). -/
def mkDouble (neg : Bool) (v : ℚ) : DoubleVal :=
  if v ≥ dblOvf then (if neg then DoubleVal.negInf else DoubleVal.posInf)
  else if v ≤ dblTiny then DoubleVal.fin 0
  else DoubleVal.fin (if neg then -v else v)

/-- Hexadecimal digit test for the `0x` forms of `strtod`. -/
def isHexDigitC (c : Char) : Bool :=
  c.isDigit || ('a' ≤ c && c ≤ 'f') || ('A' ≤ c && c ≤ 'F')

/-- Numeric value of one hexadecimal digit. -/
def hexDigitVal (c : Char) : ℕ :=
  if c.isDigit then c.toNat - 48
  else if 'a' ≤ c then c.toNat - 87
  else c.toNat - 55

/-- Numeric value of a hexadecimal digit string. -/
def hexVal (l : List Char) : ℕ :=
  l.foldl (fun a c => 16 * a + hexDigitVal c) 0

/-- Binary exponent part of the hex forms of `strtod`: `[pP][+-]?digits`;
a malformed exponent is not consumed and contributes 0. -/
def parseExpP (l : List Char) : ℤ :=
  match l with
  | 'p' :: rest =>
      let sg := parseSign rest
      let ds := sg.2.takeWhile Char.isDigit
      if ds.isEmpty then 0
      else if sg.1 then -(digitsVal ds : ℤ) else (digitsVal ds : ℤ)
  | 'P' :: rest =>
      let sg := parseSign rest
      let ds := sg.2.takeWhile Char.isDigit
      if ds.isEmpty then 0
      else if sg.1 then -(digitsVal ds : ℤ) else (digitsVal ds : ℤ)
  | _ => 0

/-- Exact magnitude of a decimal form: integer digits, fraction digits,
decimal exponent. -/
def decVal (ints fracs : List Char) (e : ℤ) : ℚ :=
  ((digitsVal ints : ℚ) + (digitsVal fracs : ℚ) / (10 : ℚ) ^ fracs.length) * (10 : ℚ) ^ e

/-- Exact magnitude of a hexadecimal form: hex integer digits, hex
fraction digits, binary exponent. -/
def hexMant (ints fracs : List Char) (e : ℤ) : ℚ :=
  ((hexVal ints : ℚ) + (hexVal fracs : ℚ) / (16 : ℚ) ^ fracs.length) * (2 : ℚ) ^ e

/-- Decimal branch of `strtod`: digits with an optional fraction and
exponent; `none` when no conversion is possible there. -/
def strtodDec (neg : Bool) (l : List Char) : Option DoubleVal :=
  let ints := l.takeWhile Char.isDigit
  let l2 := l.dropWhile Char.isDigit
  match l2 with
  | '.' :: l3 =>
      let fracs := l3.takeWhile Char.isDigit
      let l4 := l3.dropWhile Char.isDigit
      if ints.isEmpty ∧ fracs.isEmpty then none
      else some (mkDouble neg (decVal ints fracs (parseExp l4)))
  | _ =>
      if ints.isEmpty then none
      else some (mkDouble neg (decVal ints [] (parseExp l2)))

/-- Hexadecimal branch of `strtod`, entered after a leading `0x`/`0X`:
hex digits with an optional fraction and binary exponent.  When no hex
digit follows, the subject sequence is just the leading `0`, so the value
is 0. -/
def strtodHex (neg : Bool) (l : List Char) : Option DoubleVal :=
  let ints := l.takeWhile isHexDigitC
  let l2 := l.dropWhile isHexDigitC
  match l2 with
  | '.' :: l3 =>
      let fracs := l3.takeWhile isHexDigitC
      let l4 := l3.dropWhile isHexDigitC
      if ints.isEmpty ∧ fracs.isEmpty then some (DoubleVal.fin 0)
      else some (mkDouble neg (hexMant ints fracs (parseExpP l4)))
  | _ =>
      if ints.isEmpty then some (DoubleVal.fin 0)
      else some (mkDouble neg (hexMant ints [] (parseExpP l2)))

/-- C99 `strtod`: optional whitespace and sign, then one of the
case-insensitive keywords `infinity`, `inf`, `nan` (an optional
parenthesised n-char-sequence after `nan` does not change the NaN value),
a hexadecimal form introduced by `0x`/`0X`, or a decimal form.  `none`
means no conversion could be performed (the C function then returns
0.0). -/
def strtodParse (s : String) : Option DoubleVal :=
  let l := (s.data).dropWhile isSpaceC
  let sg := parseSign l
  let neg := sg.1
  let l1 := sg.2
  if (l1.take 8).map Char.toLower = "infinity".data then
    some (if neg then DoubleVal.negInf else DoubleVal.posInf)
  else if (l1.take 3).map Char.toLower = "inf".data then
    some (if neg then DoubleVal.negInf else DoubleVal.posInf)
  else if (l1.take 3).map Char.toLower = "nan".data then
    some DoubleVal.nanV
  else
    match l1 with
    | '0' :: x :: l2 =>
        if x = 'x' ∨ x = 'X' then strtodHex neg l2
        else strtodDec neg l1
    | _ => strtodDec neg l1

/-- The value `strtod` leaves in `timeout` (line 184): the parsed value,
or 0 when no conversion is possible. -/
def strtodVal (s : String) : DoubleVal := (strtodParse s).getD (DoubleVal.fin 0)

/-- The IEEE comparison `timeout < 0.0` of line 307: false for `+inf` and
for NaN (every ordered comparison with NaN is false). -/
def dblLtZero : DoubleVal → Bool
| DoubleVal.fin q => decide (q < 0)
| DoubleVal.negInf => true
| DoubleVal.posInf => false
| DoubleVal.nanV => false

/-- The prefix test performed by `strncmp(argv[i], flag, strlen(flag))`. -/
def strPrefixOf (p s : String) : Bool := List.isPrefixOf p.data s.data

/-- The pointer offset `argv[i] + strlen(flag)`: drop the first `n`
characters. -/
def strDrop (s : String) (n : ℕ) : String := ⟨s.data.drop n⟩

/-- Mutable state of the argument loop of `main`, lines 132-141. -/
structure ParseState where
  fullLog : Bool
  useJit : Bool
  autoCompare : Bool
  gpuCore : GPUCore
  bootFilename : Option String
  mountIso : Option String
  screenshotFilename : Option String
  readMount : Bool
  timeout : DoubleVal
  teamCityMode : Bool
deriving DecidableEq, Repr

/-- Initial values of the argument loop's locals. -/
def initParseState : ParseState :=
  { fullLog := false, useJit := true, autoCompare := false
    gpuCore := GPUCore.GPU_NULL, bootFilename := none, mountIso := none
    screenshotFilename := none, readMount := false, timeout := DoubleVal.fin (-1)
    teamCityMode := false }

/-- The `for` loop over `argv`, lines 143-200, one branch per `strcmp`
chain in the source, in source order. -/
def parseLoop : ParseState → List String → Except UsageReason ParseState
| st, [] => Except.ok st
| st, a :: rest =>
  if st.readMount then
    parseLoop { st with mountIso := some a, readMount := false } rest
  else if a = "-m" ∨ a = "--mount" then
    parseLoop { st with readMount := true } rest
  else if a = "-l" ∨ a = "--log" then
    parseLoop { st with fullLog := true } rest
  else if a = "-i" then
    parseLoop { st with useJit := false } rest
  else if a = "-j" then
    parseLoop { st with useJit := true } rest
  else if a = "-c" ∨ a = "--compare" then
    parseLoop { st with autoCompare := true } rest
  else if strPrefixOf "--graphics=" a ∧ "--graphics=".length < a.length then
    match parseGpuBackend (strDrop a "--graphics=".length) with
    | some g => parseLoop { st with gpuCore := g } rest
    | none => Except.error UsageReason.unknownBackend
  else if a = "--graphics" then
    parseLoop { st with gpuCore := GPUCore.GPU_GLES } rest
  else if strPrefixOf "--screenshot=" a ∧ "--screenshot=".length < a.length then
    parseLoop { st with screenshotFilename := some (strDrop a "--screenshot=".length) } rest
  else if strPrefixOf "--timeout=" a ∧ "--timeout=".length < a.length then
    parseLoop { st with timeout := strtodVal (strDrop a "--timeout=".length) } rest
  else if a = "--teamcity" then
    parseLoop { st with teamCityMode := true } rest
  else if st.bootFilename = none then
    parseLoop { st with bootFilename := some a } rest
  else if a = "--help" ∨ a = "-h" then
    Except.error UsageReason.helpRequested
  else
    Except.error (UsageReason.unexpectedArgument a)

/-- Argument parsing of `main` (lines 143-211): the loop, then the
`readMount` and `bootFilename` checks.  `argv` excludes the program name. -/
def parseArgs (argv : List String) : Except UsageReason Config :=
  match parseLoop initParseState argv with
  | Except.error e => Except.error e
  | Except.ok st =>
    if st.readMount then Except.error UsageReason.missingMountArg
    else
      match st.bootFilename with
      | none =>
          Except.error (if argv.isEmpty then UsageReason.noArgs else UsageReason.noExecutable)
      | some bf =>
          Except.ok
            { fullLog := st.fullLog, useJit := st.useJit
              autoCompare := st.autoCompare, gpuCore := st.gpuCore
              bootFilename := bf, mountIso := st.mountIso
              screenshotFilename := st.screenshotFilename
              timeout := st.timeout, teamCityMode := st.teamCityMode }

/-- The timeout a parsed command line carries, when it parses. -/
def cfgTimeout (r : Except UsageReason Config) : Option DoubleVal :=
  match r with
  | Except.ok c => some c.timeout
  | Except.error _ => none

/-- `coreParameter` as filled in by `main`, lines 234-252.  `glWorking` is
the result of `host->InitGL` (line 217): on failure the GPU core is
downgraded to `GPU_NULL` (line 236). -/
def mkCoreParameter (cfg : Config) (glWorking : Bool) : CoreParameter :=
  { cpuCore := if cfg.useJit then CPUCore.CPU_JIT else CPUCore.CPU_INTERPRETER
    gpuCore := if glWorking then cfg.gpuCore else GPUCore.GPU_NULL
    fileToStart := cfg.bootFilename
    mountIso := cfg.mountIso.getD ""
    printfEmuLog := !cfg.autoCompare
    collectEmuLog := cfg.autoCompare }

/-- Modelled from the spec: the emulation core's handling of one piece of
emulated program output is not part of `Headless.cpp`; §4.2 of the spec
(`OutputSink.append`) says output is appended to the retained buffer when
capture is active and otherwise written straight to the pass-through
destination.  The wiring (`collectEmuLog` set iff `autoCompare`,
`printfEmuLog = !autoCompare`) is from the source, lines 242-244.  The
state is (retained buffer, pass-through destination contents). -/
def emitOutput (p : CoreParameter) (st : String × List String) (text : String) :
    String × List String :=
  if p.collectEmuLog then (st.1 ++ text, st.2)
  else if p.printfEmuLog then (st.1, st.2 ++ [text])
  else st

/-- The deadline computation of line 307:
`timeout < 0.0 ? infinity : time_now() + timeout`.  A negative timeout
takes the float-infinity sentinel; a `+inf` timeout makes the sum `+inf`
and a NaN timeout makes it NaN, and the deadline is only ever used in the
strict comparison `time_now() > deadline` of line 321, which is false for
the infinite and the NaN deadline alike — all three unexceedable cases are
therefore `none`. -/
def mkDeadline (timeout : DoubleVal) (t0 : ℚ) : Option ℚ :=
  if dblLtZero timeout then none
  else
    match timeout with
    | DoubleVal.fin q => some (t0 + q)
    | _ => none

/-- The check `time_now() > deadline` of line 321; always false against the
infinite deadline. -/
def overDeadline (t : ℚ) : Option ℚ → Bool
| none => false
| some d => decide (d < t)

/-- The actions of the timeout branch, lines 322-328, in source order:
`printf` of the captured output, `SendDebugOutput("TIMEOUT\n")`, the
`testFailed` report, `Core_Stop()`. -/
def timeoutTail : List Event :=
  [Event.flushOutput, Event.debugOutput "TIMEOUT\n", Event.failedEvt, Event.coreStop]

/-- The run loop of lines 309-330.  Arguments: the deadline, the oracle's
per-iteration answers, the current `coreState`, the current `doCompare`.
Returns the emitted events, the final `coreState` and the final
`doCompare`; `none` when the oracle's answers run out while the loop still
runs.  `Core_Stop()` is modelled (from the spec, §4.1/§6: cooperative
cancellation makes the loop exit) as setting `coreState` to
`CORE_POWERDOWN`; its implementation lives outside `Headless.cpp`. -/
def runLoop (d : Option ℚ) :
    List (CoreState × ℚ) → CoreState → Bool → Option (List Event × CoreState × Bool)
| [], cs, dc =>
    if cs = CoreState.CORE_RUNNING then none else some ([], cs, dc)
| (cs', t) :: rest, cs, dc =>
    if cs = CoreState.CORE_RUNNING then
      let cs2 := if cs' = CoreState.CORE_NEXTFRAME then CoreState.CORE_RUNNING else cs'
      let ev2 : List Event :=
        if cs' = CoreState.CORE_NEXTFRAME then [Event.resumeRunning, Event.swapBuffers] else []
      if overDeadline t d then
        match runLoop d rest CoreState.CORE_POWERDOWN false with
        | none => none
        | some (evs, csf, dcf) =>
            some (Event.runQuantum :: (ev2 ++ timeoutTail ++ evs), csf, dcf)
      else
        match runLoop d rest cs2 dc with
        | none => none
        | some (evs, csf, dcf) => some (Event.runQuantum :: (ev2 ++ evs), csf, dcf)
    else some ([], cs, dc)

/-- The `SetComparisonScreenshot` call, lines 302-303. -/
def screenshotEvents (cfg : Config) : List Event :=
  match cfg.screenshotFilename with
  | some f => [Event.setScreenshot f]
  | none => []

/-- Events before the run loop on the boot-success path, lines 217-303:
`InitGL`, `PSP_Init`, the `testStarted` report, `BootDone`, and the
optional screenshot registration. -/
def preEvents (cfg : Config) (gl : Bool) : List Event :=
  Event.initGL :: Event.pspInitEvt (mkCoreParameter cfg gl) :: Event.startedEvt ::
    Event.bootDone :: screenshotEvents cfg

/-- Events after the run loop, lines 332-344: `ShutdownGL`, `PSP_Shutdown`,
`FlushDebugOutput`, the comparison when requested and not timed out, and
the `testFinished` report. -/
def postEvents (cfg : Config) (dc : Bool) : List Event :=
  Event.shutdownGL :: Event.pspShutdown :: Event.flushDebugOutput ::
    ((if cfg.autoCompare && dc then [Event.compareOutput] else []) ++ [Event.finishedEvt])

/-- The body of `main` after argument parsing, lines 213-346, as a trace of
events plus the final `doCompare` and the exit code.  On `PSP_Init` failure
(lines 291-296): the error message, `TESTERROR`, the `testIgnored` report,
and exit code 1. -/
def runMain (cfg : Config) (env : Env) : Option (List Event × Bool × ℕ) :=
  if env.bootOk then
    match runLoop (mkDeadline cfg.timeout env.t0) env.steps CoreState.CORE_RUNNING true with
    | none => none
    | some (evs, _, dc) =>
        some (preEvents cfg env.glWorking ++ evs ++ postEvents cfg dc, dc, 0)
  else
    some ([Event.initGL, Event.pspInitEvt (mkCoreParameter cfg env.glWorking),
           Event.bootFailMsg, Event.testError, Event.ignoredEvt], true, 1)

/-- The whole process: parse, and on a usage error print the usage text and
exit 1 without building the orchestrator; otherwise run. -/
def headlessMain (argv : List String) (env : Env) : Option (List Event × Bool × ℕ) :=
  match parseArgs argv with
  | Except.error _ => some ([Event.usage], true, 1)
  | Except.ok cfg => runMain cfg env

/-- Events the run loop can emit. -/
def isLoopEvent : Event → Bool
| Event.runQuantum => true
| Event.resumeRunning => true
| Event.swapBuffers => true
| Event.flushOutput => true
| Event.debugOutput _ => true
| Event.failedEvt => true
| Event.coreStop => true
| _ => false

/-- Every `swapBuffers` in the list is immediately preceded by the
resume-to-`CORE_RUNNING` action of the same iteration. -/
def swapsPaired : List Event → Bool
| [] => true
| Event.resumeRunning :: Event.swapBuffers :: rest => swapsPaired rest
| Event.swapBuffers :: _ => false
| _ :: rest => swapsPaired rest

/-- A baseline configuration for concrete runs: `headless tests/cpu/alu.prx
--teamcity`. -/
def cfg0 : Config :=
  { fullLog := false, useJit := true, autoCompare := false
    gpuCore := GPUCore.GPU_NULL, bootFilename := "tests/cpu/alu.prx"
    mountIso := none, screenshotFilename := none, timeout := DoubleVal.fin (-1)
    teamCityMode := true }

/-- An environment in which `PSP_Init` fails. -/
def envBootFail : Env := { glWorking := true, bootOk := false, t0 := 0, steps := [] }

/-- The baseline configuration asking for the GLES backend. -/
def cfgGles : Config := { cfg0 with gpuCore := GPUCore.GPU_GLES }

/-- An environment in which `InitGL` fails but the boot succeeds and the
run completes naturally after one quantum. -/
def envNoGL : Env :=
  { glWorking := false, bootOk := true, t0 := 0
    steps := [(CoreState.CORE_POWERDOWN, 1)] }

/-- The baseline configuration with `--timeout=1 --compare`. -/
def cfgTimed : Config := { cfg0 with timeout := DoubleVal.fin 1, autoCompare := true }

/-- An environment whose first quantum already takes the wall clock past
time 1. -/
def envTimed : Env :=
  { glWorking := true, bootOk := true, t0 := 0
    steps := [(CoreState.CORE_RUNNING, 2)] }

/-- An environment with one pending frame swap followed by natural
completion. -/
def envFrame : Env :=
  { glWorking := true, bootOk := true, t0 := 0
    steps := [(CoreState.CORE_NEXTFRAME, 1), (CoreState.CORE_POWERDOWN, 2)] }

/-- The trace of the boot-failure path on the baseline inputs. -/
def bootFailTrace0 : List Event :=
  [Event.initGL, Event.pspInitEvt (mkCoreParameter cfg0 true), Event.bootFailMsg,
   Event.testError, Event.ignoredEvt]

/-- The trace of the frame-swap-then-complete run on the baseline inputs. -/
def evsFrame : List Event :=
  [Event.initGL, Event.pspInitEvt (mkCoreParameter cfg0 true), Event.startedEvt,
   Event.bootDone, Event.runQuantum, Event.resumeRunning, Event.swapBuffers,
   Event.runQuantum, Event.shutdownGL, Event.pspShutdown, Event.flushDebugOutput,
   Event.finishedEvt]

/-- The configuration parsed from the single argument
`tests/cpu/alu.prx`. -/
def cfgPlain : Config := { cfg0 with teamCityMode := false }

/-- The configuration parsed from the single argument `--bogus`: the
unrecognized dash-argument is consumed as the boot target. -/
def cfgBogus : Config := { cfgPlain with bootFilename := "--bogus" }

/-- The trace of the completed run of `cfgGles` under `envNoGL`. -/
def evsNoGL : List Event :=
  [Event.initGL, Event.pspInitEvt (mkCoreParameter cfgGles false), Event.startedEvt,
   Event.bootDone, Event.runQuantum, Event.shutdownGL, Event.pspShutdown,
   Event.flushDebugOutput, Event.finishedEvt]

/-- The trace of the timed-out run on `cfgTimed`/`envTimed`. -/
def evsTimed : List Event :=
  [Event.initGL, Event.pspInitEvt (mkCoreParameter cfgTimed true), Event.startedEvt,
   Event.bootDone, Event.runQuantum, Event.flushOutput, Event.debugOutput "TIMEOUT\n",
   Event.failedEvt, Event.coreStop, Event.shutdownGL, Event.pspShutdown,
   Event.flushDebugOutput, Event.finishedEvt]

lemma runLoop_stopped (d : Option ℚ) (steps : List (CoreState × ℚ)) (cs : CoreState)
    (dc : Bool) (h : cs ≠ CoreState.CORE_RUNNING) :
    runLoop d steps cs dc = some ([], cs, dc) := by
  cases steps with
  | nil => simp [runLoop, h]
  | cons a rest =>
      obtain ⟨cs', t⟩ := a
      simp [runLoop, h]

lemma runLoop_spec (d : Option ℚ) (steps : List (CoreState × ℚ)) :
    ∀ (evs : List Event) (csf : CoreState) (dcf : Bool),
      runLoop d steps CoreState.CORE_RUNNING true = some (evs, csf, dcf) →
      (∀ e ∈ evs, isLoopEvent e = true) ∧ csf ≠ CoreState.CORE_RUNNING ∧
        swapsPaired evs = true ∧
        ((dcf = true ∧ Event.flushOutput ∉ evs ∧ Event.failedEvt ∉ evs ∧
            Event.coreStop ∉ evs) ∨
          (dcf = false ∧ csf = CoreState.CORE_POWERDOWN ∧
            ∃ l1, evs = l1 ++ timeoutTail ∧ Event.flushOutput ∉ l1 ∧
              Event.failedEvt ∉ l1)) := by
  induction steps with
  | nil =>
      intro evs csf dcf h
      simp [runLoop] at h
  | cons a rest ih =>
      obtain ⟨cs', t⟩ := a
      intro evs csf dcf h
      by_cases hnf : cs' = CoreState.CORE_NEXTFRAME
      · by_cases hod : overDeadline t d = true
        · simp [runLoop, hnf, hod,
            runLoop_stopped d rest CoreState.CORE_POWERDOWN false (by simp)] at h
          obtain ⟨hevs, hcsf, hdcf⟩ := h
          subst hevs; subst hcsf; subst hdcf
          refine ⟨by decide, by simp, by decide, Or.inr ⟨rfl, rfl,
            [Event.runQuantum, Event.resumeRunning, Event.swapBuffers],
            by simp [timeoutTail], by decide, by decide⟩⟩
        · simp [runLoop, hnf, hod] at h
          cases hr : runLoop d rest CoreState.CORE_RUNNING true with
          | none => rw [hr] at h; simp at h
          | some trip =>
              obtain ⟨evs', csf', dcf'⟩ := trip
              rw [hr] at h
              simp only [Option.some.injEq, Prod.mk.injEq] at h
              obtain ⟨hevs, hcsf, hdcf⟩ := h
              subst hevs; subst hcsf; subst hdcf
              obtain ⟨ha, hb, hc, hd⟩ := ih evs' csf' dcf' hr
              refine ⟨?_, hb, ?_, ?_⟩
              · intro e he
                simp only [List.mem_cons] at he
                rcases he with rfl | rfl | rfl | hm
                · rfl
                · rfl
                · rfl
                · exact ha e hm
              · exact hc
              · rcases hd with ⟨h1, h2, h3, h4⟩ | ⟨h1, h2, l1, hl, m1, m2⟩
                · exact Or.inl ⟨h1, by simp [h2], by simp [h3], by simp [h4]⟩
                · exact Or.inr ⟨h1, h2,
                    Event.runQuantum :: Event.resumeRunning :: Event.swapBuffers :: l1,
                    by simp [hl], by simp [m1], by simp [m2]⟩
      · by_cases hod : overDeadline t d = true
        · simp [runLoop, hnf, hod,
            runLoop_stopped d rest CoreState.CORE_POWERDOWN false (by simp)] at h
          obtain ⟨hevs, hcsf, hdcf⟩ := h
          subst hevs; subst hcsf; subst hdcf
          refine ⟨by decide, by simp, by decide, Or.inr ⟨rfl, rfl, [Event.runQuantum],
            by simp [timeoutTail], by decide, by decide⟩⟩
        · by_cases hcr : cs' = CoreState.CORE_RUNNING
          · subst hcr
            simp [runLoop, hnf, hod] at h
            cases hr : runLoop d rest CoreState.CORE_RUNNING true with
            | none => rw [hr] at h; simp at h
            | some trip =>
                obtain ⟨evs', csf', dcf'⟩ := trip
                rw [hr] at h
                simp only [Option.some.injEq, Prod.mk.injEq] at h
                obtain ⟨hevs, hcsf, hdcf⟩ := h
                subst hevs; subst hcsf; subst hdcf
                obtain ⟨ha, hb, hc, hd⟩ := ih evs' csf' dcf' hr
                refine ⟨?_, hb, ?_, ?_⟩
                · intro e he
                  simp only [List.mem_cons] at he
                  rcases he with rfl | hm
                  · rfl
                  · exact ha e hm
                · exact hc
                · rcases hd with ⟨h1, h2, h3, h4⟩ | ⟨h1, h2, l1, hl, m1, m2⟩
                  · exact Or.inl ⟨h1, by simp [h2], by simp [h3], by simp [h4]⟩
                  · exact Or.inr ⟨h1, h2, Event.runQuantum :: l1,
                      by simp [hl], by simp [m1], by simp [m2]⟩
          · simp [runLoop, hnf, hod, runLoop_stopped d rest cs' true hcr] at h
            obtain ⟨hevs, hcsf, hdcf⟩ := h
            subst hevs; subst hcsf; subst hdcf
            exact ⟨by decide, hcr, by decide, Or.inl ⟨rfl, by decide, by decide, by decide⟩⟩

lemma not_mem_screenshotEvents (cfg : Config) (e : Event)
    (h : ∀ f, e ≠ Event.setScreenshot f) : e ∉ screenshotEvents cfg := by
  cases hc : cfg.screenshotFilename with
  | none => simp [screenshotEvents, hc]
  | some f => simpa [screenshotEvents, hc] using h f

lemma not_mem_preEvents (cfg : Config) (gl : Bool) (e : Event)
    (h1 : e ≠ Event.initGL) (h2 : ∀ p, e ≠ Event.pspInitEvt p)
    (h3 : e ≠ Event.startedEvt) (h4 : e ≠ Event.bootDone)
    (h5 : ∀ f, e ≠ Event.setScreenshot f) : e ∉ preEvents cfg gl := by
  have hs := not_mem_screenshotEvents cfg e h5
  intro hm
  simp only [preEvents, List.mem_cons] at hm
  rcases hm with rfl | rfl | rfl | rfl | hm
  · exact h1 rfl
  · exact h2 _ rfl
  · exact h3 rfl
  · exact h4 rfl
  · exact hs hm

lemma not_mem_postEvents (cfg : Config) (dc : Bool) (e : Event)
    (h1 : e ≠ Event.shutdownGL) (h2 : e ≠ Event.pspShutdown)
    (h3 : e ≠ Event.flushDebugOutput) (h4 : e ≠ Event.compareOutput)
    (h5 : e ≠ Event.finishedEvt) : e ∉ postEvents cfg dc := by
  intro hm
  simp only [postEvents, List.mem_cons, List.mem_append] at hm
  rcases hm with rfl | rfl | rfl | hm | hm
  · exact h1 rfl
  · exact h2 rfl
  · exact h3 rfl
  · cases hb : (cfg.autoCompare && dc) <;> rw [hb] at hm <;> simp at hm
    exact h4 hm
  · simp at hm
    exact h5 hm

lemma count_postEvents (cfg : Config) (dc : Bool) :
    (postEvents cfg dc).count Event.shutdownGL = 1 ∧
    (postEvents cfg dc).count Event.pspShutdown = 1 ∧
    (postEvents cfg dc).count Event.finishedEvt = 1 := by
  cases hb : (cfg.autoCompare && dc) <;> simp only [postEvents, hb] <;>
    refine ⟨?_, ?_, ?_⟩ <;> decide

lemma runMain_bootfail (cfg : Config) (env : Env) (hb : env.bootOk = false) :
    runMain cfg env =
      some ([Event.initGL, Event.pspInitEvt (mkCoreParameter cfg env.glWorking),
             Event.bootFailMsg, Event.testError, Event.ignoredEvt], true, 1) := by
  simp [runMain, hb]

lemma runMain_success (cfg : Config) (env : Env) (evs : List Event) (dc : Bool) (c : ℕ)
    (hb : env.bootOk = true) (h : runMain cfg env = some (evs, dc, c)) :
    ∃ levs csf,
      runLoop (mkDeadline cfg.timeout env.t0) env.steps CoreState.CORE_RUNNING true =
        some (levs, csf, dc) ∧
      evs = preEvents cfg env.glWorking ++ levs ++ postEvents cfg dc ∧ c = 0 := by
  simp only [runMain, hb, if_true] at h
  cases hr : runLoop (mkDeadline cfg.timeout env.t0) env.steps CoreState.CORE_RUNNING true with
  | none => rw [hr] at h; simp at h
  | some trip =>
      obtain ⟨levs, csf, dcf⟩ := trip
      rw [hr] at h
      simp only [Option.some.injEq, Prod.mk.injEq] at h
      obtain ⟨hevs, hdc, hc⟩ := h
      subst hdc
      exact ⟨levs, csf, rfl, hevs.symm, hc.symm⟩

/-- Claim C1, counterexample: on a concrete boot-failure run the
`testIgnored` event is emitted and the process exits 1, but no
`testFinished` event is emitted at all, contradicting "an Ignored event is
emitted followed by a Finished event" and "exactly one Finished event is
emitted on every code path, including boot failure". -/
theorem bootFailure_missing_finished_cex :
    runMain cfg0 envBootFail = some (bootFailTrace0, true, 1) ∧
    Event.ignoredEvt ∈ bootFailTrace0 ∧ Event.finishedEvt ∉ bootFailTrace0 ∧
    bootFailTrace0.count Event.finishedEvt = 0 :=
  ⟨rfl, by decide, by decide, by decide⟩

/-- Claim C1 (amended): for every run in which the boot target fails to
initialize, no Started event is emitted, exactly one Ignored event is
emitted, no Finished event is emitted, and the process exits with code 1;
a Finished event is emitted exactly once on every terminating run whose
boot succeeds (but not on the boot-failure path). -/
theorem bootFailure_reporting_amended (cfg : Config) (env : Env) :
    (env.bootOk = false →
      ∃ evs, runMain cfg env = some (evs, true, 1) ∧ Event.startedEvt ∉ evs ∧
        evs.count Event.ignoredEvt = 1 ∧ Event.finishedEvt ∉ evs) ∧
    (∀ evs dc c, env.bootOk = true → runMain cfg env = some (evs, dc, c) →
      Event.ignoredEvt ∉ evs ∧ evs.count Event.finishedEvt = 1 ∧ c = 0) := by
  constructor
  · intro hb
    refine ⟨_, runMain_bootfail cfg env hb, ?_, ?_, ?_⟩
    · simp
    · simp [List.count_cons]
    · simp
  · intro evs dc c hb hrun
    obtain ⟨levs, csf, hr, hevs, hc⟩ := runMain_success cfg env evs dc c hb hrun
    obtain ⟨ha, -, -, -⟩ := runLoop_spec _ _ levs csf dc hr
    subst hevs
    have hpre : Event.ignoredEvt ∉ preEvents cfg env.glWorking :=
      not_mem_preEvents _ _ _ (by simp) (fun p => by simp) (by simp) (by simp)
        (fun f => by simp)
    have hpreF : Event.finishedEvt ∉ preEvents cfg env.glWorking :=
      not_mem_preEvents _ _ _ (by simp) (fun p => by simp) (by simp) (by simp)
        (fun f => by simp)
    have hlev : Event.ignoredEvt ∉ levs := fun hm => absurd (ha _ hm) (by decide)
    have hlevF : Event.finishedEvt ∉ levs := fun hm => absurd (ha _ hm) (by decide)
    have hpost : Event.ignoredEvt ∉ postEvents cfg dc :=
      not_mem_postEvents _ _ _ (by simp) (by simp) (by simp) (by simp) (by simp)
    refine ⟨?_, ?_, hc⟩
    · intro hm
      rcases List.mem_append.mp hm with hm' | hm'
      · rcases List.mem_append.mp hm' with hm'' | hm''
        · exact hpre hm''
        · exact hlev hm''
      · exact hpost hm'
    · rw [List.count_append, List.count_append,
        List.count_eq_zero.mpr hpreF, List.count_eq_zero.mpr hlevF,
        (count_postEvents cfg dc).2.2]

/-- Claim C1 witness: the amended statement applied to the concrete
boot-failure run and to a concrete completed run. -/
theorem bootFailure_reporting_amended_wit :
    (∃ evs, runMain cfg0 envBootFail = some (evs, true, 1) ∧
      Event.startedEvt ∉ evs ∧ evs.count Event.ignoredEvt = 1 ∧
      Event.finishedEvt ∉ evs) ∧
    (Event.ignoredEvt ∉ evsFrame ∧ evsFrame.count Event.finishedEvt = 1 ∧ (0 : ℕ) = 0) :=
  ⟨(bootFailure_reporting_amended cfg0 envBootFail).1 rfl,
   (bootFailure_reporting_amended cfg0 envFrame).2 evsFrame true 0 rfl rfl⟩

/-- Claim C2, counterexample: on a concrete boot-failure run (one of the
exit paths the claim quantifies over) neither the graphics release nor the
core shutdown is invoked: the cleanup is skipped there, not performed
exactly once. -/
theorem bootFailure_skips_cleanup_cex :
    runMain cfg0 envBootFail = some (bootFailTrace0, true, 1) ∧
    bootFailTrace0.count Event.shutdownGL = 0 ∧
    bootFailTrace0.count Event.pspShutdown = 0 :=
  ⟨rfl, by decide, by decide⟩

/-- Claim C2 (amended): on every terminating run whose boot succeeds (the
TimedOut and Completed exit paths) the graphics release and the emulation
core shutdown each happen exactly once, with the graphics release
happening before the core shutdown; on the BootFailed path the cleanup is
skipped entirely (neither is invoked). -/
theorem cleanup_once_amended (cfg : Config) (env : Env) :
    (env.bootOk = false → ∀ evs dc c, runMain cfg env = some (evs, dc, c) →
      Event.shutdownGL ∉ evs ∧ Event.pspShutdown ∉ evs) ∧
    (env.bootOk = true → ∀ evs dc c, runMain cfg env = some (evs, dc, c) →
      evs.count Event.shutdownGL = 1 ∧ evs.count Event.pspShutdown = 1 ∧
      ∃ l1 l2, evs = l1 ++ Event.shutdownGL :: Event.pspShutdown :: l2) := by
  constructor
  · intro hb evs dc c hrun
    rw [runMain_bootfail cfg env hb] at hrun
    simp only [Option.some.injEq, Prod.mk.injEq] at hrun
    obtain ⟨hevs, -, -⟩ := hrun
    subst hevs
    exact ⟨by simp, by simp⟩
  · intro hb evs dc c hrun
    obtain ⟨levs, csf, hr, hevs, -⟩ := runMain_success cfg env evs dc c hb hrun
    obtain ⟨ha, -, -, -⟩ := runLoop_spec _ _ levs csf dc hr
    subst hevs
    have hpreS : Event.shutdownGL ∉ preEvents cfg env.glWorking :=
      not_mem_preEvents _ _ _ (by simp) (fun p => by simp) (by simp) (by simp)
        (fun f => by simp)
    have hpreP : Event.pspShutdown ∉ preEvents cfg env.glWorking :=
      not_mem_preEvents _ _ _ (by simp) (fun p => by simp) (by simp) (by simp)
        (fun f => by simp)
    have hlevS : Event.shutdownGL ∉ levs := fun hm => absurd (ha _ hm) (by decide)
    have hlevP : Event.pspShutdown ∉ levs := fun hm => absurd (ha _ hm) (by decide)
    refine ⟨?_, ?_, preEvents cfg env.glWorking ++ levs,
      Event.flushDebugOutput ::
        ((if cfg.autoCompare && dc then [Event.compareOutput] else []) ++
          [Event.finishedEvt]), ?_⟩
    · rw [List.count_append, List.count_append,
        List.count_eq_zero.mpr hpreS, List.count_eq_zero.mpr hlevS,
        (count_postEvents cfg dc).1]
    · rw [List.count_append, List.count_append,
        List.count_eq_zero.mpr hpreP, List.count_eq_zero.mpr hlevP,
        (count_postEvents cfg dc).2.1]
    · simp [postEvents, List.append_assoc]

/-- Claim C3: for every terminating boot-success run whose wall-clock time
exceeded the deadline while the loop was running — observable as a final
`doCompare` of false, which the code sets exactly in the deadline-exceeded
branch — the buffered captured output is flushed to the pass-through
destination immediately before the Failed event, cooperative cancellation
is requested (`Core_Stop`), the loop exits in the timed-out terminal state
(`CORE_POWERDOWN`), no comparison is invoked, and the Failed event
precedes the Finished event. -/
theorem timeout_flush_failed_order (cfg : Config) (env : Env) (evs : List Event) (c : ℕ)
    (hb : env.bootOk = true)
    (hrun : runMain cfg env = some (evs, false, c)) :
    evs.count Event.flushOutput = 1 ∧ evs.count Event.failedEvt = 1 ∧
    evs.count Event.finishedEvt = 1 ∧ Event.compareOutput ∉ evs ∧
    Event.coreStop ∈ evs ∧
    (∃ l1 l2, evs = l1 ++ timeoutTail ++ l2 ++ [Event.finishedEvt] ∧
      Event.flushOutput ∉ l1 ∧ Event.failedEvt ∉ l1 ∧ Event.finishedEvt ∉ l1 ∧
      Event.finishedEvt ∉ l2) ∧
    (∀ levs csf dcf,
      runLoop (mkDeadline cfg.timeout env.t0) env.steps CoreState.CORE_RUNNING true =
        some (levs, csf, dcf) → dcf = false → csf = CoreState.CORE_POWERDOWN) := by
  obtain ⟨levs, csf, hr, hevs, -⟩ := runMain_success cfg env evs false c hb hrun
  obtain ⟨ha, -, -, hd⟩ := runLoop_spec _ _ levs csf false hr
  rcases hd with ⟨hfalse, -, -, -⟩ | ⟨-, -, l1, hl, m1, m2⟩
  · exact absurd hfalse (by decide)
  · have hpost : postEvents cfg false =
        [Event.shutdownGL, Event.pspShutdown, Event.flushDebugOutput, Event.finishedEvt] := by
      simp [postEvents]
    have hpreFl : Event.flushOutput ∉ preEvents cfg env.glWorking :=
      not_mem_preEvents _ _ _ (by simp) (fun p => by simp) (by simp) (by simp)
        (fun f => by simp)
    have hpreFa : Event.failedEvt ∉ preEvents cfg env.glWorking :=
      not_mem_preEvents _ _ _ (by simp) (fun p => by simp) (by simp) (by simp)
        (fun f => by simp)
    have hpreFi : Event.finishedEvt ∉ preEvents cfg env.glWorking :=
      not_mem_preEvents _ _ _ (by simp) (fun p => by simp) (by simp) (by simp)
        (fun f => by simp)
    have hpreCo : Event.compareOutput ∉ preEvents cfg env.glWorking :=
      not_mem_preEvents _ _ _ (by simp) (fun p => by simp) (by simp) (by simp)
        (fun f => by simp)
    have hlevFi : Event.finishedEvt ∉ levs := fun hm => absurd (ha _ hm) (by decide)
    have hlevCo : Event.compareOutput ∉ levs := fun hm => absurd (ha _ hm) (by decide)
    subst hevs
    subst hl
    refine ⟨?_, ?_, ?_, ?_, ?_, ?_, ?_⟩
    · rw [List.count_append, List.count_append, List.count_append,
        List.count_eq_zero.mpr hpreFl, List.count_eq_zero.mpr m1, hpost]
      decide
    · rw [List.count_append, List.count_append, List.count_append,
        List.count_eq_zero.mpr hpreFa, List.count_eq_zero.mpr m2, hpost]
      decide
    · rw [List.count_append, List.count_append,
        List.count_eq_zero.mpr hpreFi, List.count_eq_zero.mpr hlevFi, hpost]
      decide
    · intro hm
      rcases List.mem_append.mp hm with hm' | hm'
      · rcases List.mem_append.mp hm' with hm'' | hm''
        · exact hpreCo hm''
        · exact hlevCo hm''
      · rw [hpost] at hm'
        simp at hm'
    · simp [timeoutTail]
    · refine ⟨preEvents cfg env.glWorking ++ l1,
        [Event.shutdownGL, Event.pspShutdown, Event.flushDebugOutput], ?_, ?_, ?_, ?_, ?_⟩
      · rw [hpost]
        simp [List.append_assoc]
      · intro hm
        rcases List.mem_append.mp hm with hm' | hm'
        · exact hpreFl hm'
        · exact m1 hm'
      · intro hm
        rcases List.mem_append.mp hm with hm' | hm'
        · exact hpreFa hm'
        · exact m2 hm'
      · intro hm
        rcases List.mem_append.mp hm with hm' | hm'
        · exact hpreFi hm'
        · exact hlevFi (List.mem_append.mpr (Or.inl hm'))
      · decide
    · intro levs' csf' dcf' hr' hdcf
      obtain ⟨-, -, -, hd'⟩ := runLoop_spec _ _ levs' csf' dcf' hr'
      rcases hd' with ⟨htrue', -, -, -⟩ | ⟨-, hcsf', -⟩
      · rw [hdcf] at htrue'
        exact absurd htrue' (by decide)
      · exact hcsf'

/-- Claim C3 witness: the timed-out concrete run, with every hypothesis
discharged by computation. -/
theorem timeout_flush_failed_order_wit :
    evsTimed.count Event.flushOutput = 1 ∧ evsTimed.count Event.failedEvt = 1 ∧
    evsTimed.count Event.finishedEvt = 1 ∧ Event.compareOutput ∉ evsTimed ∧
    Event.coreStop ∈ evsTimed ∧
    (∃ l1 l2, evsTimed = l1 ++ timeoutTail ++ l2 ++ [Event.finishedEvt] ∧
      Event.flushOutput ∉ l1 ∧ Event.failedEvt ∉ l1 ∧ Event.finishedEvt ∉ l1 ∧
      Event.finishedEvt ∉ l2) ∧
    (∀ levs csf dcf,
      runLoop (mkDeadline cfgTimed.timeout envTimed.t0) envTimed.steps
          CoreState.CORE_RUNNING true =
        some (levs, csf, dcf) → dcf = false → csf = CoreState.CORE_POWERDOWN) :=
  timeout_flush_failed_order cfgTimed envTimed evsTimed 0 rfl
    (by
      norm_num [runMain, runLoop, mkDeadline, dblLtZero, overDeadline, preEvents,
        postEvents, screenshotEvents, cfgTimed, envTimed, cfg0, timeoutTail, evsTimed]
      rfl)

/-- Claim C2 witness: the amended statement applied to the concrete
boot-failure run and to a concrete completed run. -/
theorem cleanup_once_amended_wit :
    (Event.shutdownGL ∉ bootFailTrace0 ∧ Event.pspShutdown ∉ bootFailTrace0) ∧
    (evsFrame.count Event.shutdownGL = 1 ∧ evsFrame.count Event.pspShutdown = 1 ∧
      ∃ l1 l2, evsFrame = l1 ++ Event.shutdownGL :: Event.pspShutdown :: l2) :=
  ⟨(cleanup_once_amended cfg0 envBootFail).1 rfl bootFailTrace0 true 1 rfl,
   (cleanup_once_amended cfg0 envFrame).2 rfl evsFrame true 0 rfl⟩

/-- Claim C4, counterexample: the command line `--bogus` carries an
unrecognized flag — a malformed-input category the claim covers — yet it
does not print the usage message and does not stop before the
orchestrator: the argument is consumed as the boot target, the
orchestrator is constructed (`InitGL` and `PSP_Init` are invoked), and no
usage event appears in the trace. -/
theorem unrecognized_flag_boots_cex :
    parseArgs ["--bogus"] = Except.ok cfgBogus ∧
    cfgBogus.bootFilename = "--bogus" ∧
    headlessMain ["--bogus"] envBootFail =
      some ([Event.initGL, Event.pspInitEvt (mkCoreParameter cfgBogus true),
             Event.bootFailMsg, Event.testError, Event.ignoredEvt], true, 1) ∧
    Event.usage ∉ [Event.initGL, Event.pspInitEvt (mkCoreParameter cfgBogus true),
             Event.bootFailMsg, Event.testError, Event.ignoredEvt] ∧
    Event.initGL ∈ [Event.initGL, Event.pspInitEvt (mkCoreParameter cfgBogus true),
             Event.bootFailMsg, Event.testError, Event.ignoredEvt] :=
  ⟨rfl, rfl, rfl, by decide, by decide⟩

/-- Claim C4 (amended): a missing value after `--mount`, an unknown
backend after `--graphics=`, an unexpected extra argument once the boot
target is set, or a missing boot target makes the process print the usage
text and exit 1 without constructing the orchestrator (the trace holds
only the usage message); an unrecognized dash-argument appearing before
any boot target is set is not an error — it is consumed as the boot
target and the run proceeds.  Every command line that parses runs, and
the exit code is then 0 regardless of pass, fail or timeout outcome;
only boot failure also yields exit 1. -/
theorem cli_usage_exit_codes_amended (argv : List String) (env : Env) :
    (∀ e, parseArgs argv = Except.error e →
      headlessMain argv env = some ([Event.usage], true, 1)) ∧
    (∀ cfg evs dc c, parseArgs argv = Except.ok cfg →
      headlessMain argv env = some (evs, dc, c) →
      c = (if env.bootOk then 0 else 1)) ∧
    parseArgs ["game.elf", "--mount"] = Except.error UsageReason.missingMountArg ∧
    parseArgs ["--graphics=foo", "game.elf"] = Except.error UsageReason.unknownBackend ∧
    parseArgs ["game.elf", "--unknown-flag"] =
      Except.error (UsageReason.unexpectedArgument "--unknown-flag") ∧
    parseArgs [] = Except.error UsageReason.noArgs ∧
    parseArgs ["--bogus"] = Except.ok cfgBogus := by
  refine ⟨?_, ?_, rfl, rfl, rfl, rfl, rfl⟩
  · intro e he
    simp [headlessMain, he]
  · intro cfg evs dc c hok hrun
    simp only [headlessMain, hok] at hrun
    cases hbo : env.bootOk
    · rw [runMain_bootfail cfg env hbo] at hrun
      simp only [Option.some.injEq, Prod.mk.injEq] at hrun
      obtain ⟨-, -, h1c⟩ := hrun
      rw [← h1c]
      simp
    · obtain ⟨-, -, -, -, hc⟩ := runMain_success cfg env evs dc c hbo hrun
      rw [hc]
      simp

/-- Claim C4 witness: a command line with a usage error exits 1 with only
the usage message; a command line that parses and whose boot fails exits 1
via the boot path; both hypotheses discharged by computation. -/
theorem cli_usage_exit_codes_amended_wit :
    headlessMain ["--graphics=foo", "game.elf"] envBootFail =
      some ([Event.usage], true, 1) ∧
    (1 : ℕ) = (if envBootFail.bootOk then 0 else 1) :=
  ⟨(cli_usage_exit_codes_amended ["--graphics=foo", "game.elf"] envBootFail).1
      UsageReason.unknownBackend rfl,
   (cli_usage_exit_codes_amended ["tests/cpu/alu.prx"] envBootFail).2.1 cfgPlain
      [Event.initGL, Event.pspInitEvt (mkCoreParameter cfgPlain true),
       Event.bootFailMsg, Event.testError, Event.ignoredEvt] true 1 rfl rfl⟩

lemma chopFrontL_id_of_no_front (s front : List Char) (h : ¬ front <+: s) :
    chopFrontL s front = s := by
  rw [chopFrontL, if_neg]
  rintro ⟨hlen, htake⟩
  exact h (htake ▸ List.take_prefix front.length s)

lemma chopEndL_id_of_no_end (s e : List Char) (h : ¬ e <:+ s) :
    chopEndL s e = s := by
  rw [chopEndL, if_neg]
  rintro ⟨hlen, hdrop⟩
  exact h (hdrop ▸ List.drop_suffix (s.length - e.length) s)

/-- Claim C5, counterexample: test-name derivation is not idempotent: the
derived name of `tests/tests/cpu/alu.prx` is `tests/cpu/alu`, whose own
derived name is `cpu/alu`, a different string. -/
theorem derive_name_not_idempotent_cex :
    deriveTestName "tests/tests/cpu/alu.prx" = "tests/cpu/alu" ∧
    deriveTestName (deriveTestName "tests/tests/cpu/alu.prx") ≠
      deriveTestName "tests/tests/cpu/alu.prx" :=
  ⟨by decide, by decide⟩

/-- Claim C5 (amended): the two examples of the claim hold, and derivation
is idempotent for every string whose derived name does not itself start
with one of the two known directory prefixes and does not end with the
known file-extension suffix; a derived name that still matches a prefix or
the suffix is chopped again, so derivation is not idempotent in general. -/
theorem derive_name_idempotent_amended (s : String)
    (h1 : ¬ "tests/".data <+: (deriveTestName s).data)
    (h2 : ¬ "pspautotests/tests/".data <+: (deriveTestName s).data)
    (h3 : ¬ ".prx".data <:+ (deriveTestName s).data) :
    deriveTestName (deriveTestName s) = deriveTestName s := by
  have s1 : ChopFront (deriveTestName s) "tests/" = deriveTestName s := by
    rw [ChopFront, chopFrontL_id_of_no_front _ _ h1]
  have s2 : ChopFront (deriveTestName s) "pspautotests/tests/" = deriveTestName s := by
    rw [ChopFront, chopFrontL_id_of_no_front _ _ h2]
  have s3 : ChopEnd (deriveTestName s) ".prx" = deriveTestName s := by
    rw [ChopEnd, chopEndL_id_of_no_end _ _ h3]
  calc deriveTestName (deriveTestName s)
      = ChopEnd (ChopFront (ChopFront (deriveTestName s) "tests/")
          "pspautotests/tests/") ".prx" := rfl
    _ = ChopEnd (ChopFront (deriveTestName s) "pspautotests/tests/") ".prx" := by rw [s1]
    _ = ChopEnd (deriveTestName s) ".prx" := by rw [s2]
    _ = deriveTestName s := s3

/-- Claim C5 witness: the amended idempotence applied to the claim's own
examples, with the non-matching hypotheses discharged by computation. -/
theorem derive_name_idempotent_amended_wit :
    deriveTestName (deriveTestName "pspautotests/tests/cpu/alu.prx") =
      deriveTestName "pspautotests/tests/cpu/alu.prx" ∧
    deriveTestName "pspautotests/tests/cpu/alu.prx" = "cpu/alu" ∧
    deriveTestName (deriveTestName "cpu/alu") = deriveTestName "cpu/alu" ∧
    deriveTestName "cpu/alu" = "cpu/alu" :=
  ⟨derive_name_idempotent_amended "pspautotests/tests/cpu/alu.prx"
      (by decide) (by decide) (by decide),
   by decide,
   derive_name_idempotent_amended "cpu/alu" (by decide) (by decide) (by decide),
   by decide⟩

/-- Claim C6, counterexample: in a concrete run in which the graphics
resource acquisition (`InitGL`) fails but `PSP_Init` succeeds, the run
proceeds with the null backend, no Ignored event is emitted, and the
process exits 0 — so a resource-acquisition failure is not treated as a
boot error. -/
theorem initGL_failure_not_boot_error_cex :
    runMain cfgGles envNoGL = some (evsNoGL, true, 0) ∧
    (mkCoreParameter cfgGles false).gpuCore = GPUCore.GPU_NULL ∧
    Event.ignoredEvt ∉ evsNoGL ∧ Event.startedEvt ∈ evsNoGL :=
  ⟨rfl, rfl, by decide, by decide⟩

/-- Claim C6 (amended): a graphics-resource acquisition failure is not a
boot error: the orchestrator downgrades the GPU core to the null backend
and proceeds, and when the boot itself succeeds no Ignored event is
emitted and the exit code is 0; only a `PSP_Init` failure is reported with
an Ignored event and exit code 1. -/
theorem initGL_failure_fallback_amended (cfg : Config) (env : Env)
    (hgl : env.glWorking = false) :
    (mkCoreParameter cfg env.glWorking).gpuCore = GPUCore.GPU_NULL ∧
    (∀ evs dc c, env.bootOk = true → runMain cfg env = some (evs, dc, c) →
      Event.ignoredEvt ∉ evs ∧ c = 0) ∧
    (env.bootOk = false →
      ∃ evs, runMain cfg env = some (evs, true, 1) ∧ Event.ignoredEvt ∈ evs) := by
  refine ⟨by simp [mkCoreParameter, hgl], ?_, ?_⟩
  · intro evs dc c hb hrun
    obtain ⟨levs, csf, hr, hevs, hc⟩ := runMain_success cfg env evs dc c hb hrun
    obtain ⟨ha, -, -, -⟩ := runLoop_spec _ _ levs csf dc hr
    subst hevs
    have hpre : Event.ignoredEvt ∉ preEvents cfg env.glWorking :=
      not_mem_preEvents _ _ _ (by simp) (fun p => by simp) (by simp) (by simp)
        (fun f => by simp)
    have hlev : Event.ignoredEvt ∉ levs := fun hm => absurd (ha _ hm) (by decide)
    have hpost : Event.ignoredEvt ∉ postEvents cfg dc :=
      not_mem_postEvents _ _ _ (by simp) (by simp) (by simp) (by simp) (by simp)
    refine ⟨?_, hc⟩
    intro hm
    rcases List.mem_append.mp hm with hm' | hm'
    · rcases List.mem_append.mp hm' with hm'' | hm''
      · exact hpre hm''
      · exact hlev hm''
    · exact hpost hm'
  · intro hb
    exact ⟨_, runMain_bootfail cfg env hb, by simp⟩

/-- Claim C6 witness: the amended statement applied to the concrete
no-graphics environment. -/
theorem initGL_failure_fallback_amended_wit :
    (mkCoreParameter cfgGles envNoGL.glWorking).gpuCore = GPUCore.GPU_NULL ∧
    (∀ evs dc c, envNoGL.bootOk = true → runMain cfgGles envNoGL = some (evs, dc, c) →
      Event.ignoredEvt ∉ evs ∧ c = 0) ∧
    (envNoGL.bootOk = false →
      ∃ evs, runMain cfgGles envNoGL = some (evs, true, 1) ∧ Event.ignoredEvt ∈ evs) :=
  initGL_failure_fallback_amended cfgGles envNoGL rfl

lemma emitOutput_pass (p : CoreParameter) (hc : p.collectEmuLog = false)
    (hp : p.printfEmuLog = true) :
    ∀ (texts : List String) (buf : String) (out : List String),
      texts.foldl (emitOutput p) (buf, out) = (buf, out ++ texts) := by
  intro texts
  induction texts with
  | nil => intro buf out; simp
  | cons t ts ih =>
      intro buf out
      simp only [List.foldl_cons, emitOutput, hc, hp]
      simp only [Bool.false_eq_true, if_false, if_true]
      rw [ih]
      simp

/-- Claim C7: with the compare-output flag false the emulated output
collector is disabled and the immediate pass-through printing enabled, so
for any sequence of emitted texts the retained buffer stays empty and
every text reaches the pass-through destination in order; in general a
disabled collector never changes the buffer. -/
theorem captured_output_gating (cfg : Config) (gl : Bool) (texts : List String)
    (h : cfg.autoCompare = false) :
    (mkCoreParameter cfg gl).collectEmuLog = false ∧
    (mkCoreParameter cfg gl).printfEmuLog = true ∧
    (texts.foldl (emitOutput (mkCoreParameter cfg gl)) ("", [])).1 = "" ∧
    (texts.foldl (emitOutput (mkCoreParameter cfg gl)) ("", [])).2 = texts ∧
    (∀ (p : CoreParameter) (st : String × List String) (t : String),
      p.collectEmuLog = false → (emitOutput p st t).1 = st.1) := by
  have hc : (mkCoreParameter cfg gl).collectEmuLog = false := by
    simp [mkCoreParameter, h]
  have hp : (mkCoreParameter cfg gl).printfEmuLog = true := by
    simp [mkCoreParameter, h]
  refine ⟨hc, hp, ?_, ?_, ?_⟩
  · rw [emitOutput_pass _ hc hp texts "" []]
  · rw [emitOutput_pass _ hc hp texts "" []]
    simp
  · intro p st t hcp
    cases hpp : p.printfEmuLog <;> simp [emitOutput, hcp, hpp]

/-- Claim C7 witness: the gating applied to the baseline non-comparing
configuration and a concrete output sequence. -/
theorem captured_output_gating_wit :
    (mkCoreParameter cfg0 true).collectEmuLog = false ∧
    (mkCoreParameter cfg0 true).printfEmuLog = true ∧
    ((["hello", "world"].foldl (emitOutput (mkCoreParameter cfg0 true)) ("", [])).1 = "") ∧
    ((["hello", "world"].foldl (emitOutput (mkCoreParameter cfg0 true)) ("", [])).2 =
      ["hello", "world"]) ∧
    (∀ (p : CoreParameter) (st : String × List String) (t : String),
      p.collectEmuLog = false → (emitOutput p st t).1 = st.1) :=
  captured_output_gating cfg0 true ["hello", "world"] rfl

/-- Claim C8, counterexample: in a concrete loop iteration that finds a
pending frame swap, the resume-to-Running action happens before the
`swapBuffers` call, not after it: the code sets `coreState = CORE_RUNNING`
first and only then calls the graphics collaborator. -/
theorem frame_swap_order_cex :
    runLoop none [(CoreState.CORE_NEXTFRAME, 1), (CoreState.CORE_POWERDOWN, 2)]
        CoreState.CORE_RUNNING true =
      some ([Event.runQuantum, Event.resumeRunning, Event.swapBuffers, Event.runQuantum],
        CoreState.CORE_POWERDOWN, true) ∧
    List.indexOf Event.resumeRunning
        [Event.runQuantum, Event.resumeRunning, Event.swapBuffers, Event.runQuantum] <
      List.indexOf Event.swapBuffers
        [Event.runQuantum, Event.resumeRunning, Event.swapBuffers, Event.runQuantum] :=
  ⟨rfl, by decide⟩

/-- Claim C8 (amended): whenever an iteration of the run loop finds the
state indicating a pending frame swap, the state is resumed to Running
first and only then is the frame swap performed via the graphics
collaborator: in every terminating loop trace each `swapBuffers` is
immediately preceded by the resume action. -/
theorem frame_swap_order_amended (d : Option ℚ) (steps : List (CoreState × ℚ))
    (evs : List Event) (csf : CoreState) (dcf : Bool)
    (h : runLoop d steps CoreState.CORE_RUNNING true = some (evs, csf, dcf)) :
    swapsPaired evs = true :=
  (runLoop_spec d steps evs csf dcf h).2.2.1

/-- Claim C8 witness: the amended pairing applied to the concrete
frame-swap run. -/
theorem frame_swap_order_amended_wit :
    swapsPaired [Event.runQuantum, Event.resumeRunning, Event.swapBuffers,
      Event.runQuantum] = true :=
  frame_swap_order_amended none [(CoreState.CORE_NEXTFRAME, 1), (CoreState.CORE_POWERDOWN, 2)]
    [Event.runQuantum, Event.resumeRunning, Event.swapBuffers, Event.runQuantum]
    CoreState.CORE_POWERDOWN true rfl

/-- Claim C9: backend-name matching for `--graphics=` is case-insensitive
(ASCII lowercasing, as `strcasecmp` in the C locale): two spellings with
the same lowercasing select the same backend, each lowercase name selects
its backend, and a string is accepted only if it lowercases to one of the
four names. -/
theorem graphics_backend_case_insensitive (s t : String)
    (h : s.data.map Char.toLower = t.data.map Char.toLower) :
    parseGpuBackend s = parseGpuBackend t ∧
    parseGpuBackend "gles" = some GPUCore.GPU_GLES ∧
    parseGpuBackend "software" = some GPUCore.GPU_SOFTWARE ∧
    parseGpuBackend "directx9" = some GPUCore.GPU_DIRECTX9 ∧
    parseGpuBackend "null" = some GPUCore.GPU_NULL ∧
    (∀ u : String, (parseGpuBackend u).isSome = true →
      u.data.map Char.toLower = "gles".data ∨
      u.data.map Char.toLower = "software".data ∨
      u.data.map Char.toLower = "directx9".data ∨
      u.data.map Char.toLower = "null".data) := by
  have hkey : ∀ x : String, strCaseEq s x = strCaseEq t x := by
    intro x
    simp [strCaseEq, h]
  refine ⟨by simp only [parseGpuBackend, hkey], rfl, rfl, rfl, rfl, ?_⟩
  intro u hu
  by_cases h1 : strCaseEq u "gles" = true
  · simp only [strCaseEq, beq_iff_eq] at h1
    exact Or.inl (h1.trans (by decide))
  · by_cases h2 : strCaseEq u "software" = true
    · simp only [strCaseEq, beq_iff_eq] at h2
      exact Or.inr (Or.inl (h2.trans (by decide)))
    · by_cases h3 : strCaseEq u "directx9" = true
      · simp only [strCaseEq, beq_iff_eq] at h3
        exact Or.inr (Or.inr (Or.inl (h3.trans (by decide))))
      · by_cases h4 : strCaseEq u "null" = true
        · simp only [strCaseEq, beq_iff_eq] at h4
          exact Or.inr (Or.inr (Or.inr (h4.trans (by decide))))
        · simp [parseGpuBackend, h1, h2, h3, h4] at hu

/-- Claim C9 witness: the case-insensitivity applied to `GLES` versus
`gles`. -/
theorem graphics_backend_case_insensitive_wit :
    parseGpuBackend "GLES" = parseGpuBackend "gles" ∧
    parseGpuBackend "gles" = some GPUCore.GPU_GLES ∧
    parseGpuBackend "software" = some GPUCore.GPU_SOFTWARE ∧
    parseGpuBackend "directx9" = some GPUCore.GPU_DIRECTX9 ∧
    parseGpuBackend "null" = some GPUCore.GPU_NULL ∧
    (∀ u : String, (parseGpuBackend u).isSome = true →
      u.data.map Char.toLower = "gles".data ∨
      u.data.map Char.toLower = "software".data ∨
      u.data.map Char.toLower = "directx9".data ∨
      u.data.map Char.toLower = "null".data) :=
  graphics_backend_case_insensitive "GLES" "gles" (by decide)

/-- Claim C10, counterexample: `--timeout=inf` parses (C99 `strtod`
recognises `inf`) to a timeout of positive infinity, which is not
strictly negative (`timeout < 0.0` is false), yet the resulting deadline
`time_now() + inf = +inf` can never be exceeded — shown here at the
concrete wall time 1000000 — so the run is unbounded: a negative or
absent timeout is not the only way to get the unbounded deadline. -/
theorem timeout_inf_unbounded_cex :
    strtodVal "inf" = DoubleVal.posInf ∧
    dblLtZero (strtodVal "inf") = false ∧
    mkDeadline (strtodVal "inf") 0 = none ∧
    overDeadline 1000000 (mkDeadline (strtodVal "inf") 0) = false ∧
    cfgTimeout (parseArgs ["--timeout=inf", "x"]) = some DoubleVal.posInf :=
  ⟨rfl, rfl, rfl, rfl, rfl⟩

/-- Claim C10 (amended): a `--timeout=` value on which `strtod` can
perform no conversion parses to 0, which makes the deadline equal to the
wall time at run start, so the run is bounded: it times out at the first
iteration whose wall time exceeds that instant; an absent `--timeout=`
leaves the negative default −1, and a strictly negative finite timeout
yields the unbounded deadline — but not only those: a timeout of positive
infinity (spelled `inf`/`infinity`, or a decimal too large for a double,
such as `1e999`) and a NaN timeout also make the deadline unexceedable,
because the IEEE sum `time_now() + timeout` is then `+inf` or NaN and the
strict comparison against it is always false. -/
theorem timeout_parse_deadline_amended (s : String) (t0 : ℚ)
    (h : strtodParse s = none) :
    strtodVal s = DoubleVal.fin 0 ∧
    mkDeadline (strtodVal s) t0 = some t0 ∧
    (∀ q : ℚ, mkDeadline (DoubleVal.fin q) t0 = none ↔ q < 0) ∧
    mkDeadline DoubleVal.posInf t0 = none ∧
    mkDeadline DoubleVal.nanV t0 = none ∧
    dblLtZero DoubleVal.posInf = false ∧
    dblLtZero DoubleVal.nanV = false ∧
    strtodVal "1e999" = DoubleVal.posInf ∧
    cfgTimeout (parseArgs ["--timeout=abc", "x"]) = some (DoubleVal.fin 0) ∧
    cfgTimeout (parseArgs ["x"]) = some (DoubleVal.fin (-1)) ∧
    cfgTimeout (parseArgs ["--timeout=inf", "x"]) = some DoubleVal.posInf ∧
    (∀ (cs' : CoreState) (t : ℚ) (rest : List (CoreState × ℚ)), t0 < t →
      ∃ evs, runLoop (some t0) ((cs', t) :: rest) CoreState.CORE_RUNNING true =
        some (evs, CoreState.CORE_POWERDOWN, false) ∧ Event.failedEvt ∈ evs) := by
  have h0 : strtodVal s = DoubleVal.fin 0 := by simp [strtodVal, h]
  refine ⟨h0, ?_, ?_, rfl, rfl, rfl, rfl, ?_, rfl, rfl, rfl, ?_⟩
  · rw [h0]
    simp [mkDeadline, dblLtZero]
  · intro q
    constructor
    · intro ht
      by_cases htn : q < 0
      · exact htn
      · simp [mkDeadline, dblLtZero, htn] at ht
    · intro ht
      simp [mkDeadline, dblLtZero, ht]
  · show strtodVal "1e999" = DoubleVal.posInf
    have h1 : strtodVal "1e999" =
        mkDouble false (decVal ['1'] [] (parseExp ['e', '9', '9', '9'])) := rfl
    have hpe : parseExp ['e', '9', '9', '9'] = 999 := by decide
    have hval : decVal ['1'] [] 999 = 10 ^ (999 : ℕ) := by
      rw [decVal, show digitsVal ['1'] = 1 from rfl,
        show digitsVal ([] : List Char) = 0 from rfl]
      norm_num
    have hge : decVal ['1'] [] 999 ≥ dblOvf := by
      rw [hval, dblOvf]
      norm_num
    rw [h1, hpe, mkDouble, if_pos hge]
    simp
  · intro cs' t rest ht
    have hstop := runLoop_stopped (some t0) rest CoreState.CORE_POWERDOWN false (by simp)
    by_cases hnf : cs' = CoreState.CORE_NEXTFRAME
    · refine ⟨Event.runQuantum ::
        ([Event.resumeRunning, Event.swapBuffers] ++ timeoutTail), ?_, by simp [timeoutTail]⟩
      simp [runLoop, hnf, overDeadline, ht, hstop]
    · refine ⟨Event.runQuantum :: timeoutTail, ?_, by simp [timeoutTail]⟩
      simp [runLoop, hnf, overDeadline, ht, hstop]

/-- Claim C10 witness: the amended statement at the unparseable value
`abc` and start time 0, the hypothesis discharged by computation. -/
theorem timeout_parse_deadline_amended_wit :
    strtodVal "abc" = DoubleVal.fin 0 ∧
    mkDeadline (strtodVal "abc") 0 = some 0 ∧
    (∀ q : ℚ, mkDeadline (DoubleVal.fin q) 0 = none ↔ q < 0) ∧
    mkDeadline DoubleVal.posInf 0 = none ∧
    mkDeadline DoubleVal.nanV 0 = none ∧
    dblLtZero DoubleVal.posInf = false ∧
    dblLtZero DoubleVal.nanV = false ∧
    strtodVal "1e999" = DoubleVal.posInf ∧
    cfgTimeout (parseArgs ["--timeout=abc", "x"]) = some (DoubleVal.fin 0) ∧
    cfgTimeout (parseArgs ["x"]) = some (DoubleVal.fin (-1)) ∧
    cfgTimeout (parseArgs ["--timeout=inf", "x"]) = some DoubleVal.posInf ∧
    (∀ (cs' : CoreState) (t : ℚ) (rest : List (CoreState × ℚ)), 0 < t →
      ∃ evs, runLoop (some 0) ((cs', t) :: rest) CoreState.CORE_RUNNING true =
        some (evs, CoreState.CORE_POWERDOWN, false) ∧ Event.failedEvt ∈ evs) :=
  timeout_parse_deadline_amended "abc" 0 rfl

end Headless
